import Mathlib

/-!
Verification development for the Graph Notes application
(src/static/js/app.js). The JavaScript source is shallowly embedded:
the global `state` object becomes `GraphState`, node objects become
`Node` values addressed by their numeric `id` (JS holds heap references;
every reference that matters is identified by the referenced node's id),
JS numbers are modelled as exact rationals, and functions that throw are
given explicit error results. Line numbers in comments refer to
src/static/js/app.js.
-/

namespace GraphNotes

/-- The three `type` strings used for nodes in app.js: root, child, breaker. -/
inductive NodeType where
  | root
  | child
  | breaker
deriving DecidableEq

/-- A node object as built by `createNode` (lines 548-565): id, position,
type, note, creation timestamp, `parentId` and the `children` id array.
The transient force-simulation fields `fx`/`fy` (pinned position) are
created as `null` and only touched by drag handlers, which no claim
examines, so they are omitted. -/
structure Node where
  id : Int
  x : ℚ
  y : ℚ
  type : NodeType
  note : String
  createdAt : String
  parentId : Option Int
  children : List Int
deriving DecidableEq

/-- A link object as built by `createLink` (lines 567-582): endpoint node
references (modelled by the referenced ids), the derived string id
`source.id ++ "-" ++ target.id`, and the breaker-segment flag. -/
structure Link where
  source : Int
  target : Int
  id : String
  isBreakerLink : Bool
deriving DecidableEq

/-- Derived link id, line 571: the JS template string with the two ids. -/
def linkIdOf (s t : Int) : String :=
  toString s ++ "-" ++ toString t

namespace CONFIG

/-- CONFIG.chargeStrength, line 14. -/
def chargeStrength : ℚ := -500

/-- CONFIG.linkDistance, line 15. -/
def linkDistance : ℚ := 150

/-- CONFIG.zoomMin, line 19. -/
def zoomMin : ℚ := 1/10

/-- CONFIG.zoomMax, line 20. -/
def zoomMax : ℚ := 5

end CONFIG

/-- The slice of the global `state` object (lines 33-57) that the graph
operations read and write: node list, link list, the id counter, the
selected node, the pending connection source, the window size used by
load fallbacks, and the current many-body charge strength installed into
the d3 simulation (initGraph line 185, updated by createLink lines
579-580). Rendering-only fields (svg handles, drag flags, zoom handled
separately) are not part of the graph store. -/
structure GraphState where
  nodes : List Node
  links : List Link
  nextId : Int
  selectedNode : Option Int
  connectionSourceNode : Option Int
  width : ℚ
  height : ℚ
  chargeStrength : ℚ
deriving DecidableEq

/-- Default note text for root nodes, line 556. -/
def rootNoteTemplate : String := "# Новая заметка\n\nНачните писать..."

/-- The state after `init`/`initGraph`: empty graph, counter 1 (lines
33-36), charge strength installed as the base CONFIG value (line 185). -/
def initState (width height : ℚ) : GraphState :=
  { nodes := [], links := [], nextId := 1, selectedNode := none,
    connectionSourceNode := none, width := width, height := height,
    chargeStrength := CONFIG.chargeStrength }

/-- `createNode(x, y, type, parentId = null)` (lines 548-565): allocate
the next id, build the node (root nodes get the template note, others an
empty note), push it, return it. `now` stands for the
`new Date().toISOString()` timestamp (line 557). `restart()` (line 563)
only redraws and reheats the simulation, so it does not appear in the
store state. -/
def createNode (s : GraphState) (x y : ℚ) (type : NodeType)
    (parentId : Option Int) (now : String) : GraphState × Node :=
  let node : Node :=
    { id := s.nextId, x := x, y := y, type := type,
      note := if type = NodeType.root then rootNoteTemplate else "",
      createdAt := now, parentId := parentId, children := [] }
  ({ s with nodes := s.nodes ++ [node], nextId := s.nextId + 1 }, node)

/-- `createLink(source, target, isBreakerLink = false)` (lines 567-582):
push the link object, then install a new many-body force whose strength
is `CONFIG.chargeStrength * Math.min(state.links.length / 5, 2)` (lines
579-580), computed from the link count after the push. The endpoints are
passed as node ids (the JS passes the node objects themselves). -/
def createLink (s : GraphState) (sourceId targetId : Int)
    (isBreakerLink : Bool) : GraphState :=
  let link : Link :=
    { source := sourceId, target := targetId,
      id := linkIdOf sourceId targetId, isBreakerLink := isBreakerLink }
  let s := { s with links := s.links ++ [link] }
  { s with chargeStrength :=
      CONFIG.chargeStrength * min ((s.links.length : ℚ) / 5) 2 }

/-- `handleNodeRightClick(event, d)` (lines 417-442): clear any pending
connection source, create a child node at distance
`CONFIG.linkDistance` from `d` at a random angle, then create the link
`d -> child`. `cosA`/`sinA` stand for `Math.cos(angle)`/`Math.sin(angle)`
of the random angle (lines 428-432), `now` for the child's timestamp.
The datum `d` is the node object the right-click landed on. Note that
nothing here (nor inside `createNode`) ever appends the new child's id
to `d.children`; the helper `updateParentChildRelationships` (lines
614-628) that would do so is never called anywhere in the file. -/
def handleNodeRightClick (s : GraphState) (d : Node) (cosA sinA : ℚ)
    (now : String) : GraphState :=
  let s := { s with connectionSourceNode := none }
  let res := createNode s (d.x + cosA * CONFIG.linkDistance)
      (d.y + sinA * CONFIG.linkDistance) NodeType.child (some d.id) now
  createLink res.1 d.id res.2.id false

/-- `selectNode(node)` (lines 630-653): record the selection (the visual
highlighting and `openEditor` are rendering-only). -/
def selectNode (s : GraphState) (nid : Int) : GraphState :=
  { s with selectedNode := some nid }

/-- The parent/child mutual-consistency invariant from the spec: every id
listed in a node's `children` belongs to a node whose `parentId` points
back, and every node whose `parentId` points at `n` is listed in
`n.children`. -/
def parentChildConsistent (s : GraphState) : Prop :=
  (∀ n ∈ s.nodes, ∀ c ∈ n.children, ∀ m ∈ s.nodes,
      m.id = c → m.parentId = some n.id) ∧
  (∀ n ∈ s.nodes, ∀ m ∈ s.nodes, m.parentId = some n.id → m.id ∈ n.children)

instance (s : GraphState) : Decidable (parentChildConsistent s) := by
  unfold parentChildConsistent
  infer_instance

/-- JS exception kinds thrown by `deleteSelectedNode`. -/
inductive JsError where
  | typeError
  | referenceError
deriving DecidableEq

/-- `deleteSelectedNode()` (lines 655-694). After the no-selection guard
(line 656) the function always throws before its first state mutation
(the link filter on line 665):

* called from `handleKeydown` (line 520) it is a plain strict-mode call,
  so `this` is `undefined` and line 659 `const parentId = this.parentId`
  throws a TypeError (`thisIsUndefined = true`);
* called as the delete-button click listener (line 285) `this` is the
  button element, `this.parentId` is merely `undefined`, and line 662
  `state.nodes.find(n => n.id === node.parentId)` throws a
  ReferenceError because no variable named `node` is declared in any
  enclosing scope (`thisIsUndefined = false`).

Either way lines 664-693 (link filtering, parent repair, orphaning,
node removal, save) are unreachable, so the returned state is the input
state paired with the thrown error. -/
def deleteSelectedNode (s : GraphState) (thisIsUndefined : Bool) :
    GraphState × Option JsError :=
  match s.selectedNode with
  | none => (s, none)
  | some _ =>
    if thisIsUndefined then (s, some JsError.typeError)
    else (s, some JsError.referenceError)

/-- Note text written onto a freshly created breaker node, line 600. -/
def breakerNoteText : String := "# Разрывающая связь\n\nСвязь была прервана в этой точке."

/-- `createBreakerOnLine(linkData)` (lines 585-611): resolve the two
endpoints (`typeof linkData.source === 'object'` means the datum already
holds the node reference; with references modelled as ids both branches
are a lookup in `state.nodes`, lines 586-587), bail out with `null` if
either is missing (line 589), compute the midpoint (lines 592-593),
remove every stored link whose derived id equals `linkData.id` (line
596), create the breaker node (line 599), overwrite its note in place
(line 600) - the freshly pushed object is the last list entry - and add
the two breaker-segment links (lines 603-604). Returns the new state and
the breaker node. -/
def createBreakerOnLine (s : GraphState) (linkData : Link) (now : String) :
    Option (GraphState × Node) :=
  match s.nodes.find? (fun n => n.id == linkData.source),
        s.nodes.find? (fun n => n.id == linkData.target) with
  | some sourceNode, some targetNode =>
    let midX := (sourceNode.x + targetNode.x) / 2
    let midY := (sourceNode.y + targetNode.y) / 2
    let s := { s with links := s.links.filter (fun l => l.id != linkData.id) }
    let res := createNode s midX midY NodeType.breaker none now
    let breakerNode := { res.2 with note := breakerNoteText }
    let s := { res.1 with nodes := res.1.nodes.dropLast ++ [breakerNode] }
    let s := createLink s sourceNode.id breakerNode.id true
    let s := createLink s breakerNode.id targetNode.id true
    some (s, breakerNode)
  | _, _ => none

/-- Strip leading whitespace characters from a character list. -/
def trimCharsLeft : List Char → List Char
  | [] => []
  | c :: cs => if c.isWhitespace then trimCharsLeft cs else c :: cs

/-- JS `s.trim()`: strip whitespace from both ends. JS strings are
indexed sequences of units, so the string operations the source uses
are modelled over the character sequence (Lean's own `String.trim` is
implemented on byte positions). -/
def jsTrim (s : String) : String :=
  String.mk (trimCharsLeft (trimCharsLeft s.data.reverse).reverse)

/-- JS `s.length` over the character sequence. -/
def jsLength (s : String) : Nat := s.data.length

/-- JS `s.substring(n)`: the characters from index n on. -/
def jsDrop (s : String) (n : Nat) : String := String.mk (s.data.drop n)

/-- JS `s.substring(0, n)`: the first n characters. -/
def jsTake (s : String) (n : Nat) : String := String.mk (s.data.take n)

/-- An entry of the context list built by `getNodeContext`, lines 709-712. -/
structure ContextPart where
  label : String
  text : String
deriving DecidableEq

/-- MAX_CHARS, line 698. -/
def MAX_CHARS : Nat := 400

/-- Ellipsis marker prepended to truncated notes, lines 707 and 723. -/
def ellipsisMarker : String := "..."

/-- Context label for the parent entry, line 710. -/
def parentLabelOf (id : Int) : String :=
  "От родителя #" ++ toString id ++ ":"

/-- Context label for a child entry, line 726. -/
def childLabelOf (id : Int) : String :=
  "От дочерней #" ++ toString id ++ ":"

/-- `getNodeContext(node)` (lines 697-734). The parent entry comes first:
if `node.parentId` is set and resolves, and the trimmed note is
non-empty, the note is tail-truncated to its last MAX_CHARS characters
with the ellipsis marker in front whenever it is longer (lines 702-714).
Then, for each id in `node.children` in order, the same
lookup/skip/truncation is applied (lines 717-731); the truncation
expression on line 723 is identical to the parent's on line 707 - it
also keeps the LAST MAX_CHARS characters. (`if (node.parentId)` treats
0 as falsy, but node ids in this program start at 1 and loading coerces
a 0 `parentId` to null, so the Option match is exact.) -/
def getNodeContext (s : GraphState) (node : Node) : List ContextPart :=
  let parentParts : List ContextPart :=
    match node.parentId with
    | some pid =>
      match s.nodes.find? (fun n => n.id == pid) with
      | some parentNode =>
        if jsTrim parentNode.note ≠ "" then
          let noteText := jsTrim parentNode.note
          let displayText :=
            if jsLength noteText > MAX_CHARS then
              ellipsisMarker ++ jsDrop noteText (jsLength noteText - MAX_CHARS)
            else noteText
          [{ label := parentLabelOf parentNode.id, text := displayText }]
        else []
      | none => []
    | none => []
  node.children.foldl (fun acc childId =>
    match s.nodes.find? (fun n => n.id == childId) with
    | some childNode =>
      if jsTrim childNode.note ≠ "" then
        let noteText := jsTrim childNode.note
        let displayText :=
          if jsLength noteText > MAX_CHARS then
            ellipsisMarker ++ jsDrop noteText (jsLength noteText - MAX_CHARS)
          else noteText
        acc ++ [{ label := childLabelOf childNode.id, text := displayText }]
      else acc
    | none => acc) parentParts

/-- Truncation keeping the FIRST MAX_CHARS characters - what the claim
says happens to child notes. Written from the claim's words, for
comparison with `getNodeContext`. -/
def headTruncate (note : String) : String :=
  let t := jsTrim note
  if jsLength t > MAX_CHARS then jsTake t MAX_CHARS else t

/-- Truncation keeping the LAST MAX_CHARS characters behind an ellipsis
marker - what the source applies to the parent note and, identically,
to every child note. -/
def tailTruncate (note : String) : String :=
  let t := jsTrim note
  if jsLength t > MAX_CHARS then
    ellipsisMarker ++ jsDrop t (jsLength t - MAX_CHARS)
  else t

/-- The parent entry of the context list, as both the claim and the
amended reading describe it: look the parent up, skip it when its note
trims to nothing, otherwise tail-truncate. -/
def parentContextOf (s : GraphState) (node : Node) : List ContextPart :=
  match node.parentId.bind (fun pid => s.nodes.find? (fun n => n.id == pid)) with
  | some p =>
    if jsTrim p.note = "" then []
    else [{ label := parentLabelOf p.id, text := tailTruncate p.note }]
  | none => []

/-- A child's optional context entry as claim C4 states it:
head-truncated to the first MAX_CHARS characters. -/
def headChildContextEntry (s : GraphState) (cid : Int) : Option ContextPart :=
  match s.nodes.find? (fun n => n.id == cid) with
  | some c =>
    if jsTrim c.note = "" then none
    else some { label := childLabelOf c.id, text := headTruncate c.note }
  | none => none

/-- A child's optional context entry under the amended reading:
tail-truncated exactly like the parent. -/
def childContextEntry (s : GraphState) (cid : Int) : Option ContextPart :=
  match s.nodes.find? (fun n => n.id == cid) with
  | some c =>
    if jsTrim c.note = "" then none
    else some { label := childLabelOf c.id, text := tailTruncate c.note }
  | none => none

/-- The context operation as claim C4 states it (children truncated to
the first MAX_CHARS characters). Written from the claim's words, to be
compared with the source's `getNodeContext`. -/
def contextOf_claimed (s : GraphState) (node : Node) : List ContextPart :=
  parentContextOf s node ++ node.children.filterMap (headChildContextEntry s)

/-- The context operation with the amended child rule: children are
tail-truncated exactly like the parent. -/
def contextOf_amended (s : GraphState) (node : Node) : List ContextPart :=
  parentContextOf s node ++ node.children.filterMap (childContextEntry s)

/-- A d3 zoom transform: scale `k` and translation `(x, y)`. Maps the
world point `p` to the screen point `k * p + (x, y)`. -/
structure Transform where
  k : ℚ
  x : ℚ
  y : ℚ
deriving DecidableEq

/-- `d3.zoomIdentity`: scale 1, translation 0. -/
def Transform.identity : Transform := { k := 1, x := 0, y := 0 }

/-- d3's `transform.translate(dx, dy)`: the new translation is
`(x + k*dx, y + k*dy)` (the documented d3-zoom semantics; the JS
short-circuit for `dx = dy = 0` returns the same value). -/
def Transform.translate (t : Transform) (dx dy : ℚ) : Transform :=
  { k := t.k, x := t.x + t.k * dx, y := t.y + t.k * dy }

/-- d3's `transform.scale(m)`: the new scale is `k * m`, translation
unchanged (documented d3-zoom semantics). -/
def Transform.scale (t : Transform) (m : ℚ) : Transform :=
  { k := t.k * m, x := t.x, y := t.y }

/-- `getSVGCoordinates` (lines 533-545): screen-to-world conversion
`((px - x)/k, (py - y)/k)` under the current transform. -/
def screenToWorld (t : Transform) (px py : ℚ) : ℚ × ℚ :=
  ((px - t.x) / t.k, (py - t.y) / t.k)

/-- `handleWheel(event)` (lines 244-272): with current transform `t`,
zoom factor 0.9 when `event.deltaY > 0`, otherwise 1.1 (line 251);
`newScale = t.k * zoomFactor` clamped to `[zoomMin, zoomMax]` (line
255); mouse position `(mx, my)` relative to the SVG; the new transform
is `t.translate(mx - (mx - t.x)*(c/t.k), my - (my - t.y)*(c/t.k))
.scale(c)` (lines 264-267), which is then applied verbatim through
`zoom.transform` - an entry point d3 documents as NOT enforcing the
configured scale extent, so the value computed here is the transform the
viewport ends up with (after the 150 ms transition). -/
def handleWheel (t : Transform) (deltaYPositive : Bool) (mx my : ℚ) :
    Transform :=
  let zoomFactor : ℚ := if deltaYPositive then 9/10 else 11/10
  let newScale := t.k * zoomFactor
  let clampedScale := max CONFIG.zoomMin (min CONFIG.zoomMax newScale)
  (t.translate (mx - (mx - t.x) * (clampedScale / t.k))
               (my - (my - t.y) * (clampedScale / t.k))).scale clampedScale

/-- A node record of the persistence wire format (lines 962-971): `x`,
`y`, `parentId` and `children` may be absent in a hand-made payload, and
`loadGraph` guards each with `||`. -/
structure WireNode where
  id : Int
  type : NodeType
  note : String
  x : Option ℚ
  y : Option ℚ
  createdAt : String
  parentId : Option Int
  children : Option (List Int)
deriving DecidableEq

/-- A link record of the wire format (lines 972-976). -/
structure WireLink where
  source : Int
  target : Int
  isBreakerLink : Option Bool
deriving DecidableEq

/-- The JSON body exchanged with `/api/graph` (lines 961-977, 991). -/
structure Payload where
  nodes : Option (List WireNode)
  links : List WireLink
deriving DecidableEq

/-- JS `v || fallback` on a possibly-absent number: absent and 0 are
falsy (line 995/996 pattern). -/
def jsOrQ (v : Option ℚ) (fallback : ℚ) : ℚ :=
  match v with
  | some q => if q = 0 then fallback else q
  | none => fallback

/-- JS `n.parentId || null` (line 999): absent and 0 collapse to null. -/
def jsOrNullInt (v : Option Int) : Option Int :=
  match v with
  | some p => if p = 0 then none else some p
  | none => none

/-- The node mapping of `loadGraph` (lines 993-1001): each wire node is
spread into a live node; a missing (or 0) coordinate falls back to a
random point near the window centre - `rand i` supplies the two
`Math.random()` draws for the i-th node - and `fx`/`fy` are reset. -/
def loadNodes (s : GraphState) (rand : Nat → ℚ × ℚ)
    (ns : List WireNode) : List Node :=
  ns.enum.map (fun p =>
    { id := p.2.id,
      x := jsOrQ p.2.x (s.width / 2 + ((rand p.1).1 - 1/2) * 200),
      y := jsOrQ p.2.y (s.height / 2 + ((rand p.1).2 - 1/2) * 200),
      type := p.2.type, note := p.2.note, createdAt := p.2.createdAt,
      parentId := jsOrNullInt p.2.parentId,
      children := p.2.children.getD [] })

/-- Intermediate link record of the load mapping (lines 1003-1007): the
wire link together with the two endpoint lookups in the freshly loaded
node list. -/
structure ResolvedLink where
  wire : WireLink
  sourceNode : Option Node
  targetNode : Option Node

/-- The link mapping of `loadGraph` (lines 1003-1008): resolve both
endpoints against the loaded nodes, keep only the links where both
lookups succeeded (`.filter(l => l.source && l.target)`), and build the
live link objects. -/
def loadLinks (nodes : List Node) (ls : List WireLink) : List Link :=
  ((ls.map (fun l =>
      { wire := l,
        sourceNode := nodes.find? (fun n => n.id == l.source),
        targetNode := nodes.find? (fun n => n.id == l.target) :
        ResolvedLink })).filter
    (fun r => r.sourceNode.isSome && r.targetNode.isSome)).map
    (fun r =>
      { source := r.wire.source, target := r.wire.target,
        id := linkIdOf r.wire.source r.wire.target,
        isBreakerLink := r.wire.isBreakerLink.getD false })

/-- The state update performed by `loadGraph`'s response handler (lines
991-1012): nothing at all happens unless `data.nodes` exists and is
non-empty (line 992); otherwise nodes and links are rebuilt as above and
the counter becomes `Math.max(...ids) + 1` (line 1010; the empty-list
arm of the max is unreachable under the guard). -/
def loadGraphApply (p : Payload) (s : GraphState) (rand : Nat → ℚ × ℚ) :
    GraphState :=
  match p.nodes with
  | some ns =>
    if 0 < ns.length then
      let nodes := loadNodes s rand ns
      let links := loadLinks nodes p.links
      let nextId :=
        match nodes.map (fun n => n.id) with
        | [] => s.nextId
        | m :: ms => ms.foldl max m + 1
      { s with nodes := nodes, links := links, nextId := nextId }
    else s
  | none => s

/-- Debounce window of the note-change handler, line 132. -/
def DEBOUNCE_MS : Nat := 500

/-- The slice of state that the persistence pipeline for the selected
node's note touches: whether a node is selected, the note stored on that
node (`state.selectedNode.note`), the text currently in the editor
widget (`state.simplemde.value()`), the absolute time at which the armed
debounce timeout will fire (if one is armed), and the sequence of
`saveGraph()` calls, each recorded as (time, note text persisted for the
selected node). -/
structure NoteSyncState where
  selected : Bool
  nodeNote : String
  editorText : String
  pendingFire : Option Nat
  writes : List (Nat × String)
deriving DecidableEq

/-- The discrete events driving the pipeline, all on the single JS event
loop: an editor change at time `t` (new editor text `text`), the armed
debounce timeout firing at its scheduled time, a manual save (Ctrl+S,
line 512-516, or the save button, lines 279-282), and closing the
editor (lines 776-793). -/
inductive NoteEvent where
  | edit (t : Nat) (text : String)
  | timerFire (t : Nat)
  | manualSave (t : Nat)
  | closeEditor (t : Nat)
deriving DecidableEq

/-- One event step of the pipeline.

* `edit`: the codemirror change handler is the debounced wrapper (lines
  127-132 through `debounce`, lines 1018-1028): it clears any pending
  timeout and re-arms it `DEBOUNCE_MS` later; only the editor text has
  changed so far.
* `timerFire`: the armed timeout elapses: `later` clears the handle and
  runs the debounced body, which - only if a node is still selected -
  copies the editor text into the node's note and calls `saveGraph()`
  (lines 128-131).
* `manualSave`: calls `saveGraph()` and nothing else (line 514): the
  pending timeout is NOT cleared and the editor text is NOT copied into
  the node first, so the write carries the note as last flushed.
* `closeEditor`: clears the selection and then calls `saveGraph()`
  (lines 779-792); the pending timeout is not cleared, but once the
  selection is gone the debounced body's guard makes its firing a
  no-op. -/
def noteStep (s : NoteSyncState) (e : NoteEvent) : NoteSyncState :=
  match e with
  | NoteEvent.edit t text =>
    { s with editorText := text, pendingFire := some (t + DEBOUNCE_MS) }
  | NoteEvent.timerFire t =>
    if s.pendingFire = some t then
      if s.selected then
        { s with pendingFire := none, nodeNote := s.editorText,
                 writes := s.writes ++ [(t, s.editorText)] }
      else { s with pendingFire := none }
    else s
  | NoteEvent.manualSave t =>
    { s with writes := s.writes ++ [(t, s.nodeNote)] }
  | NoteEvent.closeEditor t =>
    { s with selected := false, writes := s.writes ++ [(t, s.nodeNote)] }

/-- A run of the pipeline: fold the steps over an event list. -/
def noteRun (s : NoteSyncState) (es : List NoteEvent) : NoteSyncState :=
  es.foldl noteStep s

/-! Concrete states used by the counterexample and witness theorems. -/

/-- A fixed creation timestamp. -/
def tsA : String := "2026-01-01T00:00:00.000Z"

/-- A second, later timestamp. -/
def tsB : String := "2026-01-01T00:00:01.000Z"

/-- The empty string, used as an empty note. -/
def emptyText : String := ""

/-- Create one root node at (100, 100) in a fresh session. -/
def c1Root : GraphState × Node :=
  createNode (initState 800 600) 100 100 NodeType.root none tsA

/-- Right-click the root: spawn a child at angle 0 (cos 1, sin 0). -/
def c1State : GraphState :=
  handleNodeRightClick c1Root.1 c1Root.2 1 0 tsB

/-- Fresh session with one root node, which is then selected. -/
def c2State : GraphState := selectNode c1Root.1 1

/-- Two root nodes at (0,0) and (10,0) with two parallel links 1 -> 2
(the connection gesture has no duplicate check, so clicking node 1 then
node 2 twice produces exactly this). Both links carry the derived id
for the pair (1, 2). -/
def c3Base : GraphState :=
  let s := (createNode (initState 800 600) 0 0 NodeType.root none tsA).1
  let s := (createNode s 10 0 NodeType.root none tsA).1
  createLink (createLink s 1 2 false) 1 2 false

/-- The link datum handed to `createBreakerOnLine` (one of the two
stored parallel links; they are equal as data). -/
def c3Link : Link :=
  { source := 1, target := 2, id := linkIdOf 1 2, isBreakerLink := false }

/-- The node stored for id 1 in `c3Base`. -/
def c3NodeA : Node :=
  { id := 1, x := 0, y := 0, type := NodeType.root,
    note := rootNoteTemplate, createdAt := tsA, parentId := none,
    children := [] }

/-- The node stored for id 2 in `c3Base`. -/
def c3NodeB : Node :=
  { id := 2, x := 10, y := 0, type := NodeType.root,
    note := rootNoteTemplate, createdAt := tsA, parentId := none,
    children := [] }

/-- A 401-character note: a B followed by 400 a's. Its first 400
characters and its last 400 characters differ. -/
def longNote : String := "B".pushn 'a' 400

/-- A child node carrying the long note. -/
def c4Child : Node :=
  { id := 2, x := 0, y := 0, type := NodeType.child, note := longNote,
    createdAt := tsA, parentId := some 1, children := [] }

/-- A node whose `children` lists the long-note child (such states are
produced by loading a persisted graph, whose payloads carry `children`
verbatim). -/
def c4Node : Node :=
  { id := 1, x := 0, y := 0, type := NodeType.root,
    note := rootNoteTemplate, createdAt := tsA, parentId := none,
    children := [2] }

/-- Graph holding `c4Node` and `c4Child`. -/
def c4State : GraphState :=
  { initState 800 600 with nodes := [c4Node, c4Child], nextId := 3 }

/-- Wire node with id 1 in the load counterexample payload. -/
def c5WireRoot : WireNode :=
  { id := 1, type := NodeType.root, note := rootNoteTemplate,
    x := some 5, y := some 5, createdAt := tsA, parentId := none,
    children := some [4] }

/-- Wire node with id 4. -/
def c5WireChild : WireNode :=
  { id := 4, type := NodeType.child, note := emptyText,
    x := some 6, y := some 7, createdAt := tsA, parentId := some 1,
    children := none }

/-- A link between the two loaded nodes (kept by reconciliation). -/
def c5GoodLink : WireLink := { source := 1, target := 4, isBreakerLink := none }

/-- A link whose target id 99 resolves to no loaded node (dropped). -/
def c5BadLink : WireLink := { source := 1, target := 99, isBreakerLink := some true }

/-- Persisted payload with one resolvable and one dangling link. -/
def c5Payload : Payload :=
  { nodes := some [c5WireRoot, c5WireChild], links := [c5GoodLink, c5BadLink] }

/-- A fixed oracle for the `Math.random()` draws of the load fallback. -/
def zeroRand : Nat → ℚ × ℚ := fun _ => (0, 0)

/-- The live node that loading `c5Payload` produces for wire node 4. -/
def c5LoadedChild : Node :=
  { id := 4, x := 6, y := 7, type := NodeType.child, note := emptyText,
    createdAt := tsA, parentId := some 1, children := [] }

/-- A valid transform, scale 2 (inside the zoom extent). -/
def c6Before : Transform := { k := 2, x := 0, y := 0 }

/-- A valid transform at the minimum scale 0.1. -/
def c7Before : Transform := { k := 1/10, x := 0, y := 0 }

/-- Two root nodes, no links yet: charge strength still the base. -/
def c8Base : GraphState :=
  (createNode (createNode (initState 800 600) 0 0 NodeType.root none tsA).1
    50 0 NodeType.root none tsA).1

/-- Editor text typed during the debounce window. -/
def helloText : String := "hello"

/-- A node with an empty note is selected and its editor is open. -/
def c9Init : NoteSyncState :=
  { selected := true, nodeNote := emptyText, editorText := emptyText,
    pendingFire := none, writes := [] }

/-! Helper lemmas (shared; none of these is a claim's theorem). -/

/-- `find?` succeeds exactly when `any` holds. -/
theorem find?_isSome_eq_any (l : List α) (p : α → Bool) :
    (l.find? p).isSome = l.any p := by
  induction l with
  | nil => rfl
  | cons a as ih =>
    by_cases h : p a = true
    · simp [List.find?_cons, List.any_cons, h]
    · simp only [List.find?_cons, List.any_cons, h]
      simp [h, ih]

/-- Every element of the list, and the seed, is bounded by the max fold. -/
theorem le_foldl_max (l : List Int) (a : Int) :
    a ≤ l.foldl max a ∧ ∀ x ∈ l, x ≤ l.foldl max a := by
  induction l generalizing a with
  | nil => simp
  | cons b bs ih =>
    obtain ⟨h1, h2⟩ := ih (max a b)
    refine ⟨le_trans (le_max_left a b) h1, ?_⟩
    intro x hx
    rcases List.mem_cons.mp hx with rfl | hx
    · exact le_trans (le_max_right a x) h1
    · exact h2 x hx

/-- The max fold returns the seed or a list element. -/
theorem foldl_max_mem (l : List Int) (a : Int) :
    l.foldl max a = a ∨ l.foldl max a ∈ l := by
  induction l generalizing a with
  | nil => simp
  | cons b bs ih =>
    rcases ih (max a b) with h | h
    · rcases max_choice a b with hm | hm
      · left; rw [List.foldl_cons, h, hm]
      · right; rw [List.foldl_cons, h, hm]; exact List.mem_cons_self b bs
    · right; exact List.mem_cons_of_mem b h

/-- Folding an append-or-skip step equals appending the filterMap. -/
theorem foldl_append_filterMap (f : Int → Option ContextPart)
    (cs : List Int) (acc : List ContextPart) :
    cs.foldl (fun a c =>
      match f c with
      | some x => a ++ [x]
      | none => a) acc = acc ++ cs.filterMap f := by
  induction cs generalizing acc with
  | nil => simp
  | cons c cs ih =>
    rw [List.foldl_cons, List.filterMap_cons]
    cases h : f c with
    | none => exact ih acc
    | some x => exact (ih (acc ++ [x])).trans (by simp)

/-! Claim theorems. -/

/-- Claim C1 (code_bug): the parent/child bookkeeping is NOT mutually
consistent after a right-click child spawn. Starting from a fresh
session, creating a root node and right-clicking it yields a child whose
`parentId` is the root's id while the root's `children` array is still
empty: `createNode`/`handleNodeRightClick` never append the child id,
and the helper `updateParentChildRelationships` that would is never
called. -/
theorem C1_spawn_child_breaks_consistency :
    (∃ n ∈ c1State.nodes, n.parentId = some 1) ∧
    (∃ n ∈ c1State.nodes, n.id = 1 ∧ n.children = []) ∧
    ¬ parentChildConsistent c1State := by decide

/-- Claim C2 (code_bug): `deleteSelectedNode` never deletes anything.
With a node selected it throws before its first mutation - a TypeError
at `this.parentId` on the keyboard path, a ReferenceError at the
undeclared `node` variable on the button path - leaving the graph
unchanged with the node still present. -/
theorem C2_delete_always_throws :
    deleteSelectedNode c2State true = (c2State, some JsError.typeError) ∧
    deleteSelectedNode c2State false = (c2State, some JsError.referenceError) ∧
    c2State.selectedNode = some 1 ∧ c2State.nodes ≠ [] := by decide

/-- Claim C7 (code_bug): from the valid transform with scale 0.1 (the
configured minimum), a single wheel zoom-out produces scale 0.01,
strictly below `zoomMin`: `handleWheel` clamps the target scale but then
multiplies it into the current scale via `transform.scale`, and applies
the result through `zoom.transform`, which does not enforce the scale
extent. -/
theorem C7_scale_leaves_range :
    CONFIG.zoomMin ≤ c7Before.k ∧ c7Before.k ≤ CONFIG.zoomMax ∧
    (handleWheel c7Before true 0 0).k < CONFIG.zoomMin := by
  refine ⟨by norm_num [c7Before, CONFIG.zoomMin], by norm_num [c7Before, CONFIG.zoomMax], ?_⟩
  simp only [handleWheel, c7Before, Transform.translate, Transform.scale,
    CONFIG.zoomMin, CONFIG.zoomMax, if_true]
  norm_num [min_def, max_def]

/-- Claim C6 (code_bug): the wheel zoom is not anchored. From transform
(k = 2, x = 0, y = 0), the world point under screen point (10, 0) is
(5, 0); after one zoom-in wheel event at that same screen point the
world point under it is (30/11, 0), so the anchored point moves (and
with it, repeating the event is nowhere near idempotent). -/
theorem C6_anchor_not_preserved :
    screenToWorld c6Before 10 0 = (5, 0) ∧
    screenToWorld (handleWheel c6Before false 10 0) 10 0 ≠ (5, 0) := by
  have h2 : screenToWorld (handleWheel c6Before false 10 0) 10 0 = (30/11, 0) := by
    simp only [screenToWorld, handleWheel, c6Before, Transform.translate,
      Transform.scale, CONFIG.zoomMin, CONFIG.zoomMax, if_false, Prod.mk.injEq]
    norm_num [min_def, max_def]
  refine ⟨by norm_num [screenToWorld, c6Before, Prod.ext_iff], ?_⟩
  rw [h2]
  simp only [ne_eq, Prod.mk.injEq, not_and]
  intro h
  norm_num at h

/-- Claim C8 counterexample: creating the FIRST link does not increase
the repulsion strength - it drops its magnitude from the base 500 to
100, because the scaling factor `min(linkCount/5, 2)` is 1/5 for a
single link. -/
theorem C8_counterexample :
    c8Base.chargeStrength = -500 ∧
    (createLink c8Base 1 2 false).chargeStrength = -100 ∧
    ¬ (|c8Base.chargeStrength| < |(createLink c8Base 1 2 false).chargeStrength|) := by
  have h0 : c8Base.chargeStrength = -500 := rfl
  have h1 : (createLink c8Base 1 2 false).chargeStrength = -100 := by
    simp only [createLink, c8Base, createNode, initState, CONFIG.chargeStrength]
    norm_num [min_def]
  refine ⟨h0, h1, ?_⟩
  rw [h0, h1]
  rw [abs_of_neg (by norm_num : (-500 : ℚ) < 0),
      abs_of_neg (by norm_num : (-100 : ℚ) < 0)]
  norm_num

/-- Claim C9 counterexample: an edit at t=0 arms the debounce for t=500;
a manual save at t=100 leaves the timer armed and persists the stale
pre-edit note (the empty string), and the debounced write still fires at
t=500, after the manual one, carrying the latest text. -/
theorem C9_counterexample :
    (noteRun c9Init [NoteEvent.edit 0 helloText, NoteEvent.manualSave 100]).pendingFire
      = some 500 ∧
    (noteRun c9Init [NoteEvent.edit 0 helloText, NoteEvent.manualSave 100,
        NoteEvent.timerFire 500]).writes
      = [(100, emptyText), (500, helloText)] ∧
    emptyText ≠ helloText := by decide

/-- Claim C3 counterexample: with two parallel links 1 -> 2 (both get
the derived id "1-2"), splitting one of them removes BOTH - the filter
on line 596 drops every link with the split link's id - so the final
link count is 2, not the 2 - 1 + 2 = 3 that "removes exactly that one
link and creates exactly two new links" demands. -/
theorem C3_counterexample :
    c3Base.links.length = 2 ∧
    (∀ l ∈ c3Base.links, l.id = c3Link.id) ∧
    (createBreakerOnLine c3Base c3Link tsB).map (fun r => r.1.links.length)
      = some 2 ∧
    2 ≠ c3Base.links.length - 1 + 2 := by decide

/-- Claim C3 amended (proved): when both endpoints of the link datum
resolve, `createBreakerOnLine` removes every stored link whose derived
id equals the datum's id (exactly the one link whenever no parallel
duplicate shares that id), appends exactly one breaker node placed at
the midpoint of the endpoints' current positions, and appends the two
links source -> breaker and breaker -> target, both flagged as breaker
segments; when either endpoint fails to resolve it returns nothing and
the state is untouched. -/
theorem C3_amended_split (s : GraphState) (ld : Link) (now : String) :
    (∀ sn tn, s.nodes.find? (fun n => n.id == ld.source) = some sn →
      s.nodes.find? (fun n => n.id == ld.target) = some tn →
      ∃ st b, createBreakerOnLine s ld now = some (st, b) ∧
        b.id = s.nextId ∧
        b.x = (sn.x + tn.x) / 2 ∧ b.y = (sn.y + tn.y) / 2 ∧
        b.type = NodeType.breaker ∧ b.note = breakerNoteText ∧
        st.nodes = s.nodes ++ [b] ∧
        st.nextId = s.nextId + 1 ∧
        st.links = s.links.filter (fun l => l.id != ld.id) ++
          [{ source := sn.id, target := b.id, id := linkIdOf sn.id b.id,
             isBreakerLink := true },
           { source := b.id, target := tn.id, id := linkIdOf b.id tn.id,
             isBreakerLink := true }]) ∧
    ((s.nodes.find? (fun n => n.id == ld.source) = none ∨
      s.nodes.find? (fun n => n.id == ld.target) = none) →
      createBreakerOnLine s ld now = none) := by
  constructor
  · intro sn tn hs ht
    unfold createBreakerOnLine
    rw [hs, ht]
    dsimp only [createLink, createNode]
    refine ⟨_, _, rfl, rfl, rfl, rfl, rfl, rfl, ?_, rfl, ?_⟩
    · rw [List.dropLast_concat]
    · rw [List.append_assoc]
      rfl
  · intro h
    unfold createBreakerOnLine
    rcases h with h | h
    · rw [h]
    · rw [h]
      cases s.nodes.find? (fun n => n.id == ld.source) <;> rfl

/-- Witness for C3_amended_split: on the concrete two-node graph the
split succeeds and the breaker lands at x = (0 + 10)/2 = 5. -/
theorem C3_amended_split_witness :
    (createBreakerOnLine c3Base c3Link tsB).map (fun r => r.2.x) = some 5 := by
  obtain ⟨st, b, hsome, hid, hx, hrest⟩ :=
    (C3_amended_split c3Base c3Link tsB).1 c3NodeA c3NodeB (by decide) (by decide)
  rw [hsome]
  show some b.x = some 5
  rw [hx]
  norm_num [c3NodeA, c3NodeB]

set_option maxRecDepth 8000 in
/-- Claim C4 counterexample: a child whose trimmed note has 401
characters is rendered with the LAST 400 characters behind an ellipsis
marker, not the first 400 the claim demands, so the context list the
code returns differs from the claimed one. -/
theorem C4_counterexample :
    getNodeContext c4State c4Node ≠ contextOf_claimed c4State c4Node := by decide

/-- Claim C4 amended (proved): for every graph and node, the context
operation yields the trimmed parent note first - truncated to the last
400 characters behind an ellipsis marker when longer - followed by the
trimmed note of each child in `children` order, each truncated in
exactly the same tail-keeping way (not head-truncated), skipping every
entry whose note is empty or whitespace-only. -/
theorem C4_amended_context (s : GraphState) (node : Node) :
    getNodeContext s node = contextOf_amended s node := by
  have hstep : (fun (acc : List ContextPart) (childId : Int) =>
      match s.nodes.find? (fun n => n.id == childId) with
      | some childNode =>
        if jsTrim childNode.note ≠ "" then
          acc ++ [{ label := childLabelOf childNode.id,
                    text := if jsLength (jsTrim childNode.note) > MAX_CHARS then
                        ellipsisMarker ++ jsDrop (jsTrim childNode.note)
                          (jsLength (jsTrim childNode.note) - MAX_CHARS)
                      else jsTrim childNode.note }]
        else acc
      | none => acc) =
      (fun (acc : List ContextPart) (childId : Int) =>
        match childContextEntry s childId with
        | some x => acc ++ [x]
        | none => acc) := by
    funext acc childId
    unfold childContextEntry
    cases hf : s.nodes.find? (fun n => n.id == childId) with
    | none => rfl
    | some cn =>
      by_cases ht : jsTrim cn.note = ""
      · simp [ht]
      · simp [ht, tailTruncate]
  unfold getNodeContext contextOf_amended
  dsimp only
  rw [hstep, foldl_append_filterMap (childContextEntry s) node.children]
  congr 1
  unfold parentContextOf
  cases hp : node.parentId with
  | none => rfl
  | some pid =>
    dsimp only [Option.bind]
    cases hf : s.nodes.find? (fun n => n.id == pid) with
    | none => rfl
    | some pn =>
      by_cases ht : jsTrim pn.note = ""
      · simp [ht]
      · simp [ht, tailTruncate]

/-- The load-time link mapping in filter-then-map form: a wire link
survives exactly when both endpoint ids occur among the loaded nodes. -/
theorem loadLinks_eq_filter (nodes : List Node) (ls : List WireLink) :
    loadLinks nodes ls = (ls.filter (fun w =>
        (nodes.any (fun n => n.id == w.source)) &&
        (nodes.any (fun n => n.id == w.target)))).map
      (fun w => { source := w.source, target := w.target,
                  id := linkIdOf w.source w.target,
                  isBreakerLink := w.isBreakerLink.getD false }) := by
  unfold loadLinks
  induction ls with
  | nil => rfl
  | cons l ls ih =>
    rw [List.map_cons, List.filter_cons, List.filter_cons]
    dsimp only
    rw [find?_isSome_eq_any, find?_isSome_eq_any]
    cases hq : ((nodes.any (fun n => n.id == l.source)) &&
        (nodes.any (fun n => n.id == l.target))) with
    | true => simp [ih]
    | false => simp [ih]

/-- Claim C5 (confirmed): load reconciliation keeps exactly the payload
links whose two endpoint ids resolve among the loaded nodes (dropping
the rest without any error - the embedding is a total function), the
loaded node set does not depend on the payload's links at all, the
re-derived counter is strictly above every loaded id and equals some
loaded id plus one (i.e. max + 1), and a payload with an empty node
array leaves the counter at its prior value. -/
theorem C5_load_reconciliation (p : Payload) (s : GraphState)
    (rand : Nat → ℚ × ℚ) (ns : List WireNode)
    (hn : p.nodes = some ns) (hne : ns ≠ []) :
    ((loadGraphApply p s rand).links = (p.links.filter (fun w =>
        ((loadGraphApply p s rand).nodes.any (fun n => n.id == w.source)) &&
        ((loadGraphApply p s rand).nodes.any (fun n => n.id == w.target)))).map
      (fun w => { source := w.source, target := w.target,
                  id := linkIdOf w.source w.target,
                  isBreakerLink := w.isBreakerLink.getD false })) ∧
    (∀ ls', (loadGraphApply { nodes := p.nodes, links := ls' } s rand).nodes
        = (loadGraphApply p s rand).nodes) ∧
    (∀ n ∈ (loadGraphApply p s rand).nodes,
        n.id < (loadGraphApply p s rand).nextId) ∧
    (∃ n ∈ (loadGraphApply p s rand).nodes,
        (loadGraphApply p s rand).nextId = n.id + 1) ∧
    (∀ s' ls', (loadGraphApply { nodes := some [], links := ls' } s' rand).nextId
        = s'.nextId) := by
  obtain ⟨pn, pl⟩ := p
  dsimp only at hn
  subst hn
  have hres : ∀ pl', loadGraphApply { nodes := some ns, links := pl' } s rand =
      { s with nodes := loadNodes s rand ns,
               links := loadLinks (loadNodes s rand ns) pl',
               nextId := match (loadNodes s rand ns).map (fun n => n.id) with
                         | [] => s.nextId
                         | m :: ms => ms.foldl max m + 1 } := by
    intro pl'
    unfold loadGraphApply
    dsimp only
    rw [if_pos (List.length_pos.mpr hne)]
  refine ⟨?_, ?_, ?_, ?_, fun s' ls' => rfl⟩
  · rw [hres pl]
    exact loadLinks_eq_filter (loadNodes s rand ns) pl
  · intro ls'
    rw [hres ls', hres pl]
  · rw [hres pl]
    intro n hmem
    dsimp only
    cases hids : (loadNodes s rand ns).map (fun n => n.id) with
    | nil =>
      exact absurd (hids ▸ List.mem_map_of_mem (fun n => n.id) hmem)
        (List.not_mem_nil n.id)
    | cons m ms =>
      have hin : n.id ∈ m :: ms := hids ▸ List.mem_map_of_mem (fun n => n.id) hmem
      have hle : n.id ≤ ms.foldl max m := by
        rcases List.mem_cons.mp hin with h | h
        · exact h ▸ (le_foldl_max ms n.id).1
        · exact (le_foldl_max ms m).2 n.id h
      exact Int.lt_add_one_iff.mpr hle
  · rw [hres pl]
    dsimp only
    cases hids : (loadNodes s rand ns).map (fun n => n.id) with
    | nil =>
      exfalso
      have hmapnil : loadNodes s rand ns = [] := List.map_eq_nil_iff.mp hids
      have hlen : ns.length = 0 := by
        have h0 := congrArg List.length hmapnil
        unfold loadNodes at h0
        simpa using h0
      exact hne (List.eq_nil_of_length_eq_zero hlen)
    | cons m ms =>
      have hin : ms.foldl max m ∈ m :: ms := by
        rcases foldl_max_mem ms m with h | h
        · rw [h]; exact List.mem_cons_self m ms
        · exact List.mem_cons_of_mem m h
      have hin2 : ms.foldl max m ∈ (loadNodes s rand ns).map (fun n => n.id) := by
        rw [hids]; exact hin
      obtain ⟨n, hn, hid⟩ := List.mem_map.mp hin2
      exact ⟨n, hn, by rw [hid]⟩

/-- Witness for C5_load_reconciliation: in the concrete payload, the
loaded child node's id 4 is below the re-derived counter. -/
theorem C5_load_reconciliation_witness :
    c5LoadedChild.id < (loadGraphApply c5Payload (initState 800 600) zeroRand).nextId :=
  (C5_load_reconciliation c5Payload (initState 800 600) zeroRand
    [c5WireRoot, c5WireChild] rfl (by decide)).2.2.1 c5LoadedChild (by decide)

/-- Claim C8 amended (proved): after every link creation the installed
charge strength equals the base strength (-500) times
min(linkCount/5, 2), so its magnitude never exceeds 2 times the base
magnitude; and consecutive link creations never decrease the magnitude.
(What does NOT hold is that a creation increases the strength relative
to whatever was installed before it: the initial installation is the
full base -500, so the first creation drops the magnitude to 100 - see
the counterexample.) -/
theorem C8_amended_charge (s : GraphState) (a b c d : Int) (f g : Bool) :
    (createLink s a b f).chargeStrength
      = CONFIG.chargeStrength * min (((s.links.length : ℚ) + 1) / 5) 2 ∧
    |(createLink s a b f).chargeStrength| ≤ 2 * |CONFIG.chargeStrength| ∧
    |(createLink s a b f).chargeStrength|
      ≤ |(createLink (createLink s a b f) c d g).chargeStrength| := by
  have habs : |CONFIG.chargeStrength| = 500 := by
    rw [show CONFIG.chargeStrength = -500 from rfl,
      abs_of_neg (by norm_num : (-500 : ℚ) < 0)]
    norm_num
  have h1 : (createLink s a b f).chargeStrength
      = CONFIG.chargeStrength * min (((s.links.length : ℚ) + 1) / 5) 2 := by
    simp only [createLink, List.length_append, List.length_cons, List.length_nil]
    push_cast
    ring_nf
  have h2 : (createLink (createLink s a b f) c d g).chargeStrength
      = CONFIG.chargeStrength * min (((s.links.length : ℚ) + 1 + 1) / 5) 2 := by
    simp only [createLink, List.length_append, List.length_cons, List.length_nil]
    push_cast
    ring_nf
  have hn : (0 : ℚ) ≤ (s.links.length : ℚ) := Nat.cast_nonneg _
  have hm0 : (0 : ℚ) ≤ min (((s.links.length : ℚ) + 1) / 5) 2 :=
    le_min (by positivity) (by norm_num)
  have hm0' : (0 : ℚ) ≤ min (((s.links.length : ℚ) + 1 + 1) / 5) 2 :=
    le_min (by positivity) (by norm_num)
  have hdiv : ((s.links.length : ℚ) + 1) / 5 ≤ ((s.links.length : ℚ) + 1 + 1) / 5 := by
    linarith
  have hmono : min (((s.links.length : ℚ) + 1) / 5) 2
      ≤ min (((s.links.length : ℚ) + 1 + 1) / 5) 2 :=
    min_le_min hdiv le_rfl
  refine ⟨h1, ?_, ?_⟩
  · rw [h1, abs_mul, habs, abs_of_nonneg hm0]
    have := min_le_right (((s.links.length : ℚ) + 1) / 5) 2
    linarith
  · rw [h1, h2, abs_mul, abs_mul, habs, abs_of_nonneg hm0, abs_of_nonneg hm0']
    exact mul_le_mul_of_nonneg_left hmono (by norm_num)

/-- Claim C9 amended (proved): with a debounced write pending, a manual
save writes immediately - but it persists the note as of the last
debounced flush (`saveGraph` alone is called; the editor text is not
copied into the node first) - and it does NOT cancel the pending
debounced write: the timer is still armed afterwards, and when it fires
it performs a second write carrying the latest editor text. Closing the
editor also writes immediately (same stale text) and, by clearing the
selection, turns the still-armed debounced callback into a no-op. -/
theorem C9_amended_save (s : NoteSyncState) (t tf : Nat)
    (hp : s.pendingFire = some tf) :
    (noteStep s (NoteEvent.manualSave t)).writes = s.writes ++ [(t, s.nodeNote)] ∧
    (noteStep s (NoteEvent.manualSave t)).pendingFire = some tf ∧
    (s.selected = true →
      (noteRun s [NoteEvent.manualSave t, NoteEvent.timerFire tf]).writes
        = s.writes ++ [(t, s.nodeNote), (tf, s.editorText)]) ∧
    (noteRun s [NoteEvent.closeEditor t, NoteEvent.timerFire tf]).writes
        = s.writes ++ [(t, s.nodeNote)] := by
  refine ⟨rfl, by simp [noteStep, hp], ?_, ?_⟩
  · intro hsel
    simp [noteRun, noteStep, hp, hsel]
  · simp [noteRun, noteStep, hp]

/-- Witness for C9_amended_save: after an edit at t=0 the timer is armed
for t=500 and survives the manual save at t=100. -/
theorem C9_amended_save_witness :
    (noteStep (noteRun c9Init [NoteEvent.edit 0 helloText])
      (NoteEvent.manualSave 100)).pendingFire = some 500 :=
  (C9_amended_save (noteRun c9Init [NoteEvent.edit 0 helloText]) 100 500
    (by decide)).2.1

/-- Claim C10 (confirmed): when the payload's node array is absent or
empty, `loadGraph` leaves the whole state - nodes, links and the next-id
counter - untouched, whatever the payload's links are. -/
theorem C10_load_empty_frame (s : GraphState) (rand : Nat → ℚ × ℚ)
    (ls : List WireLink) :
    loadGraphApply { nodes := none, links := ls } s rand = s ∧
    loadGraphApply { nodes := some [], links := ls } s rand = s := by
  exact ⟨rfl, rfl⟩

end GraphNotes
